import Mathlib

/-!
# VerdeGO authentication and session-refresh subsystem: verification

Shallow embedding of the token-based authentication core of the VerdeGO
repository:

* server side (`src/backend-express`): the JWT codec (`jwt.service.ts`),
  the startup configuration (`config/jwt.ts`, bundled into the file that
  also carries `cors.ts`), the authorization gate
  (`middleware/auth.middleware.ts`), the error handler
  (`middleware/errorHandler.ts`) and `AuthService.refresh`
  (`services/auth.service.ts`);
* client side (`lib/api.ts`): the `refreshAccessToken` single-flight
  coordinator and the `fetchJSON` retrier, embedded as a labelled
  small-step transition system over the event-loop state, with one step
  per synchronous segment of the original async code (segments are the
  maximal runs between `await` suspension points).

Machine integers do not occur in the modelled code paths; timestamps are
`Nat` seconds.
-/

namespace VerdeGO

/-! ## Token codec (jsonwebtoken, as used by `jwt.service.ts`)

A signed token is modelled by its claims together with the key it was
signed with; verifying against a secret checks that the signing key
equals the secret (the standard shallow model of an unforgeable MAC).
A structurally unparseable credential is the `malformed` constructor.
`jsonwebtoken` rejects with `TokenExpiredError` when the clock timestamp
is `>=` the `exp` claim, i.e. `expiresAt = now` already counts as
expired; the signature is checked before the expiry claim. -/

structure JwtClaims where
  email : String
  iss : String
  iat : Nat
  exp : Nat
deriving DecidableEq, Repr

inductive RawToken where
  | malformed
  | signed (claims : JwtClaims) (key : String)
deriving DecidableEq, Repr

inductive VerifyOutcome where
  | valid (claims : JwtClaims)
  | expired
  | invalid
deriving DecidableEq, Repr

/-- `jwt.sign(payload, secret, { expiresIn, issuer: 'verdego-api' })`. -/
def jwtSign (email : String) (secret : String) (now : Nat) (expiresInSec : Nat) : RawToken :=
  .signed ⟨email, "verdego-api", now, now + expiresInSec⟩ secret

/-- `jwt.verify(token, secret)`: signature first, then the `exp` claim
(expired exactly when `exp <= now`). -/
def jwtVerify (secret : String) (now : Nat) : RawToken → VerifyOutcome
  | .malformed => .invalid
  | .signed c key =>
      if key ≠ secret then .invalid
      else if c.exp ≤ now then .expired
      else .valid c

/-! ## JwtService (`services/jwt.service.ts`) -/

structure JwtConfig where
  secret : String
  accessExpirationMinutes : Nat
  refreshExpirationDays : Nat
deriving DecidableEq, Repr

/-- `generateAccessToken`: signs `{ email }` with `expiresIn = accessExpirationMinutes` minutes. -/
def generateAccessToken (cfg : JwtConfig) (now : Nat) (email : String) : RawToken :=
  jwtSign email cfg.secret now (cfg.accessExpirationMinutes * 60)

/-- `generateRefreshToken`: signs `{ email }` with `expiresIn = refreshExpirationDays` days. -/
def generateRefreshToken (cfg : JwtConfig) (now : Nat) (email : String) : RawToken :=
  jwtSign email cfg.secret now (cfg.refreshExpirationDays * 86400)

/-- `validateToken`: boolean wrapper around `jwt.verify` — `true` only
when verification succeeds, collapsing expired and malformed alike to
`false`. -/
def validateToken (cfg : JwtConfig) (now : Nat) (t : RawToken) : Bool :=
  match jwtVerify cfg.secret now t with
  | .valid _ => true
  | _ => false

/-- `getEmailFromToken`: `jwt.verify` then read `decoded.email`; any
verification failure is rethrown as `Error('Invalid token')`. -/
def getEmailFromToken (cfg : JwtConfig) (now : Nat) (t : RawToken) : Except String String :=
  match jwtVerify cfg.secret now t with
  | .valid c => .ok c.email
  | _ => .error "Invalid token"

/-! ## Startup configuration (`config/jwt.ts`)

`jwtConfig` is computed at module load from the environment with
JavaScript `||` defaulting (an unset or empty variable falls back to the
default string) and `parseInt(x, 10)` (longest leading digit run; a
non-numeric value yields `NaN`, modelled as `none`).  Module
initialization then throws when the resulting secret is shorter than 32
characters, so a short secret aborts the process before it serves any
traffic. -/

structure Env where
  JWT_SECRET : Option String
  JWT_ACCESS_EXP_MIN : Option String
  JWT_REFRESH_EXP_DAYS : Option String

/-- JavaScript `process.env.X || 'default'`. -/
def envOr (v : Option String) (d : String) : String :=
  match v with
  | some s => if s = "" then d else s
  | none => d

/-- JavaScript `parseInt(s, 10)` on the values that occur here: the
longest leading digit run, `NaN` (`none`) when there is none. -/
def parseInt10 (s : String) : Option Nat :=
  let ds := s.toList.takeWhile Char.isDigit
  if ds.isEmpty then none
  else some (ds.foldl (fun n c => n * 10 + (c.toNat - 48)) 0)

structure JwtConfigRaw where
  secret : String
  accessExpirationMinutes : Option Nat
  refreshExpirationDays : Option Nat
deriving DecidableEq, Repr

/-- The `jwtConfig` object literal of `config/jwt.ts`. -/
def mkJwtConfig (env : Env) : JwtConfigRaw :=
  { secret := envOr env.JWT_SECRET "change-me-dev-secret-at-least-256-bits"
    accessExpirationMinutes := parseInt10 (envOr env.JWT_ACCESS_EXP_MIN "30")
    refreshExpirationDays := parseInt10 (envOr env.JWT_REFRESH_EXP_DAYS "7") }

/-- Module initialization of `config/jwt.ts`: build `jwtConfig`, then
throw when `jwtConfig.secret.length < 32`. -/
def jwtConfigInit (env : Env) : Except String JwtConfigRaw :=
  let cfg := mkJwtConfig env
  if cfg.secret.length < 32 then
    .error "JWT_SECRET must be at least 32 characters long for security"
  else
    .ok cfg

/-- Access-credential time-to-live in seconds for an accepted raw
configuration (`NaN` propagates as `none`). -/
def accessTTLSec (cfg : JwtConfigRaw) : Option Nat :=
  cfg.accessExpirationMinutes.map (· * 60)

/-- Refresh-credential time-to-live in seconds for an accepted raw
configuration. -/
def refreshTTLSec (cfg : JwtConfigRaw) : Option Nat :=
  cfg.refreshExpirationDays.map (· * 86400)

/-! ## Server error taxonomy (`middleware/errorHandler.ts`) -/

inductive AppError where
  | validation (msg : String)
  | duplicateEmail (msg : String)
  | unauthorizedErr (msg : String)
  | notFound (msg : String)
  | jsonWebTokenError
  | tokenExpiredError
  | other (msg : String)
deriving DecidableEq, Repr

/-- The status code chosen by `errorHandler` for each error class. -/
def errorStatus : AppError → Nat
  | .validation _ => 400
  | .duplicateEmail _ => 409
  | .unauthorizedErr _ => 401
  | .notFound _ => 404
  | .jsonWebTokenError => 401
  | .tokenExpiredError => 401
  | .other _ => 500

/-- The message placed in the structured error body by `errorHandler`. -/
def errorMessage : AppError → String
  | .validation _ => "Validation Failed"
  | .duplicateEmail m => m
  | .unauthorizedErr m => m
  | .notFound m => m
  | .jsonWebTokenError => "Invalid token"
  | .tokenExpiredError => "Token expired"
  | .other _ => "An unexpected error occurred"

/-! ## Authorization gate (`middleware/auth.middleware.ts`)

`authHeader && authHeader.split(' ')[1]` extracts the Bearer token; a
missing header or a header without a second space-separated part leaves
the token undefined, modelled as `none`. -/

inductive GateResult where
  | proceed (email : String)
  | unauthorized (msg : String)
deriving DecidableEq, Repr

/-- `authenticateToken`: reject a missing token with
`Authentication required`, reject any token that fails the boolean
`validateToken` with `Invalid or expired token`, otherwise attach the
email decoded from the token (a decoding failure at that point would be
`Invalid token`, unreachable once `validateToken` has passed). -/
def authenticateToken (cfg : JwtConfig) (now : Nat) (tok : Option RawToken) : GateResult :=
  match tok with
  | none => .unauthorized "Authentication required"
  | some t =>
      if ¬ validateToken cfg now t then .unauthorized "Invalid or expired token"
      else
        match getEmailFromToken cfg now t with
        | .ok email => .proceed email
        | .error _ => .unauthorized "Invalid token"

/-! ## AuthService.refresh (`services/auth.service.ts`)

The user table is modelled by the list of registered emails; the issued
pair is built with the same `jwtService` calls as the source. -/

structure ServerAuthResponse where
  accessToken : RawToken
  refreshToken : RawToken
  email : String
deriving DecidableEq, Repr

def AuthService.refresh (cfg : JwtConfig) (now : Nat) (users : List String)
    (refreshTok : RawToken) : Except AppError ServerAuthResponse :=
  if ¬ validateToken cfg now refreshTok then
    .error (.unauthorizedErr "Invalid or expired refresh token")
  else
    match getEmailFromToken cfg now refreshTok with
    | .error e => .error (.other e)
    | .ok email =>
        if email ∈ users then
          .ok ⟨generateAccessToken cfg now email, generateRefreshToken cfg now email, email⟩
        else
          .error (.notFound "User not found")

/-! ## Backend theorems -/

/-- A fixed well-formed service configuration (the default secret of
`config/jwt.ts`, default TTLs) used for concrete instances. -/
def cfgDefault : JwtConfig :=
  ⟨"change-me-dev-secret-at-least-256-bits", 30, 7⟩

theorem getEmail_ok_of_validate {cfg : JwtConfig} {now : Nat} {t : RawToken}
    (h : validateToken cfg now t = true) :
    ∃ e, getEmailFromToken cfg now t = .ok e := by
  unfold validateToken at h
  unfold getEmailFromToken
  cases hv : jwtVerify cfg.secret now t
  · exact ⟨_, rfl⟩
  · rw [hv] at h; simp at h
  · rw [hv] at h; simp at h

theorem jwtVerify_signed_fresh (secret : String) (now : Nat) (c : JwtClaims)
    (h : now < c.exp) : jwtVerify secret now (.signed c secret) = .valid c := by
  simp [jwtVerify, Nat.not_le.mpr h]

/-- C9: for every subject `s`, verifying the access credential issued
for `s` at any time `t` strictly before its `expiresAt`
(`now + accessExpirationMinutes * 60`) yields the same subject `s`:
`getEmailFromToken (generateAccessToken s) = .ok s`. -/
theorem issue_verify_roundtrip (cfg : JwtConfig) (s : String) (now t : Nat)
    (h : t < now + cfg.accessExpirationMinutes * 60) :
    getEmailFromToken cfg t (generateAccessToken cfg now s) = .ok s := by
  have hx := jwtVerify_signed_fresh cfg.secret t
    ⟨s, "verdego-api", now, now + cfg.accessExpirationMinutes * 60⟩ h
  unfold getEmailFromToken generateAccessToken jwtSign
  rw [hx]

/-- Witness for C9 at the default configuration, subject `a@b.com`,
issue time 0, verification time 100 (inside the 1800-second TTL). -/
theorem issue_verify_roundtrip_witness :
    getEmailFromToken cfgDefault 100 (generateAccessToken cfgDefault 0 "a@b.com") =
      .ok "a@b.com" :=
  issue_verify_roundtrip cfgDefault "a@b.com" 0 100 (by decide)

/-- C5 counterexample: an expired-but-well-signed credential and a
malformed credential are distinguishable by `jwtVerify`, yet
`authenticateToken` rejects both with the identical message
`Invalid or expired token` — the claimed distinct messages for expired
versus malformed do not exist. -/
theorem gate_expired_malformed_same_message :
    jwtVerify cfgDefault.secret 10000
        (.signed ⟨"a@b.com", "verdego-api", 0, 100⟩ cfgDefault.secret) = .expired ∧
    jwtVerify cfgDefault.secret 10000 .malformed = .invalid ∧
    authenticateToken cfgDefault 10000
        (some (.signed ⟨"a@b.com", "verdego-api", 0, 100⟩ cfgDefault.secret)) =
      .unauthorized "Invalid or expired token" ∧
    authenticateToken cfgDefault 10000 (some .malformed) =
      .unauthorized "Invalid or expired token" := by
  refine ⟨by decide, rfl, by decide, rfl⟩

/-- C5 amended: the gate distinguishes only missing credentials by
message; a missing credential is rejected with
`Authentication required`, while every expired or malformed credential
is rejected with the same message `Invalid or expired token` (the
boolean `validateToken` collapses the two verification failures), and
every such rejection surfaces as status 401 through `errorHandler`. -/
theorem gate_rejections_status_and_messages :
    (∀ cfg now, authenticateToken cfg now none = .unauthorized "Authentication required") ∧
    (∀ cfg now t, jwtVerify cfg.secret now t = .expired ∨ jwtVerify cfg.secret now t = .invalid →
        authenticateToken cfg now (some t) = .unauthorized "Invalid or expired token") ∧
    (∀ m, errorStatus (.unauthorizedErr m) = 401) := by
  refine ⟨fun _ _ => rfl, ?_, fun _ => rfl⟩
  intro cfg now t h
  have hv : validateToken cfg now t = false := by
    unfold validateToken
    rcases h with h | h <;> rw [h]
  simp [authenticateToken, hv]

/-- Witness for the amended C5 at a malformed credential under the
default configuration. -/
theorem gate_rejections_status_and_messages_witness :
    authenticateToken cfgDefault 10000 (some .malformed) =
      .unauthorized "Invalid or expired token" :=
  gate_rejections_status_and_messages.2.1 cfgDefault 10000 .malformed (Or.inr rfl)

/-- C6: module initialization of `config/jwt.ts` throws exactly when the
configured signing secret is shorter than 32 characters, and succeeds
(returning the built configuration) whenever it has length at least 32;
a short secret aborts the process before any traffic is served. -/
theorem jwtConfig_secret_length_validation (env : Env) :
    ((mkJwtConfig env).secret.length < 32 →
      jwtConfigInit env =
        .error "JWT_SECRET must be at least 32 characters long for security") ∧
    (32 ≤ (mkJwtConfig env).secret.length →
      jwtConfigInit env = .ok (mkJwtConfig env)) := by
  constructor
  · intro h
    unfold jwtConfigInit
    rw [if_pos h]
  · intro h
    unfold jwtConfigInit
    rw [if_neg (by omega)]

/-- Witness for C6: a 16-character secret is rejected at startup, and
the absent-environment default (38 characters) is accepted. -/
theorem jwtConfig_secret_length_validation_witness :
    jwtConfigInit ⟨some "only-sixteen-chr", none, none⟩ =
      .error "JWT_SECRET must be at least 32 characters long for security" ∧
    jwtConfigInit ⟨none, none, none⟩ = .ok (mkJwtConfig ⟨none, none, none⟩) :=
  ⟨(jwtConfig_secret_length_validation ⟨some "only-sixteen-chr", none, none⟩).1 (by decide),
   (jwtConfig_secret_length_validation ⟨none, none, none⟩).2 (by decide)⟩

/-- C7 counterexample: startup accepts the environment
`JWT_ACCESS_EXP_MIN=20160`, `JWT_REFRESH_EXP_DAYS=7` (the secret check
is the only validation), yet the resulting access TTL (20160 minutes =
1209600 seconds) is not less than the refresh TTL (7 days = 604800
seconds), refuting `accessTTL < refreshTTL` for every accepted
configuration. -/
theorem config_accepts_inverted_ttls :
    jwtConfigInit ⟨none, some "20160", some "7"⟩ =
      .ok (mkJwtConfig ⟨none, some "20160", some "7"⟩) ∧
    accessTTLSec (mkJwtConfig ⟨none, some "20160", some "7"⟩) = some 1209600 ∧
    refreshTTLSec (mkJwtConfig ⟨none, some "20160", some "7"⟩) = some 604800 ∧
    ¬ (1209600 < 604800) := by
  refine ⟨?_, by decide, by decide, by omega⟩
  unfold jwtConfigInit
  rw [if_neg (by decide)]

/-- C7 amended: the defaults (environment variables absent) give an
access TTL of 30 minutes and a refresh TTL of 7 days, which satisfy
`accessTTL < refreshTTL`; however startup validation checks only the
secret length, so any TTL pair — including `accessTTL ≥ refreshTTL` —
is accepted at startup. -/
theorem config_ttl_defaults_ordered_but_unchecked :
    (∀ a r, jwtConfigInit ⟨none, a, r⟩ = .ok (mkJwtConfig ⟨none, a, r⟩)) ∧
    (mkJwtConfig ⟨none, none, none⟩).accessExpirationMinutes = some 30 ∧
    (mkJwtConfig ⟨none, none, none⟩).refreshExpirationDays = some 7 ∧
    accessTTLSec (mkJwtConfig ⟨none, none, none⟩) = some 1800 ∧
    refreshTTLSec (mkJwtConfig ⟨none, none, none⟩) = some 604800 ∧
    1800 < 604800 := by
  refine ⟨?_, by decide, by decide, by decide, by decide, by omega⟩
  intro a r
  have hs : (mkJwtConfig ⟨none, a, r⟩).secret.length = 38 := rfl
  unfold jwtConfigInit
  rw [if_neg (by omega)]

/-- C8 counterexample: a structurally valid, unexpired refresh token for
a subject absent from the user table makes `AuthService.refresh` fail
with `NotFoundError`, which `errorHandler` maps to status 404 — not
every failure of the refresh operation is an unauthorized (401)
rejection. -/
theorem refresh_notfound_counterexample :
    AuthService.refresh cfgDefault 0 [] (generateRefreshToken cfgDefault 0 "a@b.com") =
      .error (.notFound "User not found") ∧
    errorStatus (.notFound "User not found") = 404 ∧
    (404 : Nat) ≠ 401 := by
  refine ⟨rfl, rfl, by omega⟩

/-- C8 amended: `AuthService.refresh` either returns a fresh
access/refresh/subject triple, or fails with the unauthorized (401)
error `Invalid or expired refresh token`, or fails with the not-found
(404) error `User not found` when the token is valid but its subject is
no longer in the user table; no other outcome is produced. -/
theorem refresh_outcomes :
    (∀ cfg now users tok,
        (∃ r, AuthService.refresh cfg now users tok = .ok r) ∨
        AuthService.refresh cfg now users tok =
          .error (.unauthorizedErr "Invalid or expired refresh token") ∨
        AuthService.refresh cfg now users tok = .error (.notFound "User not found")) ∧
    errorStatus (.unauthorizedErr "Invalid or expired refresh token") = 401 ∧
    errorStatus (.notFound "User not found") = 404 := by
  refine ⟨?_, rfl, rfl⟩
  intro cfg now users tok
  by_cases hv : validateToken cfg now tok = true
  · obtain ⟨e, he⟩ := getEmail_ok_of_validate hv
    by_cases hm : e ∈ users
    · exact Or.inl ⟨⟨generateAccessToken cfg now e, generateRefreshToken cfg now e, e⟩,
        by simp [AuthService.refresh, hv, he, hm]⟩
    · exact Or.inr (Or.inr (by simp [AuthService.refresh, hv, he, hm]))
  · exact Or.inr (Or.inl (by simp [AuthService.refresh, hv]))

/-! ## Client-side coordinator and retrier (`lib/api.ts`)

The client runs on a single-threaded event loop; the module-level
mutable state of `lib/api.ts` (localStorage, the `refreshPromise`
single-flight slot, the `onTokenRefresh` subscriber callback) together
with the set of in-flight `fetchJSON` calls and the live
`refreshAccessToken` attempt form a `World`.  One labelled step of the
transition relation `Step` is one maximal synchronous segment of the
original async code (the code run between two `await` suspension
points); network responses and parsed JSON bodies are chosen by the
environment and appear in the label.  The two `await res.json()` calls
on error paths of `fetchJSON` touch no shared state and are folded into
the segment that consumes the response. -/

/-- Client-side `AuthResponse` (`lib/api.ts`): the JSON body of the
auth endpoints. -/
structure AuthResponse where
  accessToken : String
  refreshToken : String
  email : String
  name : Option String
deriving DecidableEq, Repr

/-- The object passed to `onTokenRefresh` when a refresh fails:
`{ accessToken: '', refreshToken: '', email: '', name: null }`. -/
def emptyAuthResponse : AuthResponse := ⟨"", "", "", none⟩

/-- The localStorage keys used by `lib/api.ts`. -/
structure Storage where
  accessToken : Option String
  refreshToken : Option String
  email : Option String
  name : Option String
deriving DecidableEq, Repr

/-- JavaScript truthiness of a nullable string: null/undefined and the
empty string are falsy. -/
def truthyStr : Option String → Bool
  | some s => s ≠ ""
  | none => false

/-- `pat` starts the character list `s`. -/
def leadMatch : List Char → List Char → Bool
  | _, [] => true
  | [], _ :: _ => false
  | c :: cs, p :: ps => c == p && leadMatch cs ps

/-- `pat` occurs somewhere inside the character list `s`. -/
def occursIn : List Char → List Char → Bool
  | [], pat => pat.isEmpty
  | c :: cs, pat => leadMatch (c :: cs) pat || occursIn cs pat

/-- JavaScript `String.prototype.includes`: substring occurrence. -/
def jsIncludes (s pat : String) : Bool := occursIn s.toList pat.toList

/-- `url.includes('/api/auth/')`: the guard that exempts the login,
register, and refresh endpoints from the refresh-and-retry path. -/
def isAuthUrl (u : String) : Bool := jsIncludes u "/api/auth/"

/-- ``detail?.message || `HTTP ${res.status} ${res.statusText}` `` —
the error message thrown for a non-ok response (an absent or falsy
`message` field falls back to the status line). -/
def httpErrMsg (code : Nat) (statusText : String) (detail : Option String) : String :=
  match detail with
  | some m => if m = "" then "HTTP " ++ toString code ++ " " ++ statusText else m
  | none => "HTTP " ++ toString code ++ " " ++ statusText

/-- The terminal error thrown when refresh fails or is impossible. -/
def sessionExpiredMsg : String := "Session expired. Please log in again."

/-- Outcome of one `fetchJSON` call: resolve with the parsed body (the
body itself is abstracted; we record which Bearer token the successful
request carried) or reject with an error message. -/
inductive FetchResult where
  | success (tokenUsed : Option String)
  | error (msg : String)
deriving DecidableEq, Repr

/-- Program counter of a `fetchJSON` call, one state per suspension
point of the source. -/
inductive FetchPC where
  | toStart
  | awaitFetch (sentToken : Option String)
  | awaitRefresh (epoch : Nat)
  | done (r : FetchResult)
deriving DecidableEq, Repr

/-- One outstanding `fetchJSON` call.  `presetAuth` is the
`Authorization` value already present in `init.headers` (set only by
the retry path); `isRetry` is the explicit retry flag of the source. -/
structure FetchTask where
  url : String
  isRetry : Bool
  presetAuth : Option String
  pc : FetchPC
deriving DecidableEq, Repr

/-- Program counter of the async IIFE inside `refreshAccessToken`: it
suspends at `await fetch(...)` and, on an ok response, again at
`await response.json()`. -/
inductive RTaskPC where
  | rawaitFetch
  | rawaitJson
deriving DecidableEq, Repr

/-- The live refresh attempt: the epoch identifies the promise stored
in `refreshPromise`; `sentRefreshToken` is the refresh token captured
before the attempt was created. -/
structure RTask where
  epoch : Nat
  sentRefreshToken : String
  pc : RTaskPC
deriving DecidableEq, Repr

/-- The whole client state. `refreshPromise` holds the epoch of the
pending attempt (`none` models the cleared slot); `resolved` records,
per epoch, the value the attempt settled with (`none` = the `null`
returned on failure); `refreshStartCount` counts network calls to the
refresh endpoint; `notifications` is the sequence of values delivered
to `onTokenRefresh` (appended only when the callback is registered). -/
structure World where
  storage : Storage
  callbackSet : Bool
  notifications : List AuthResponse
  refreshPromise : Option Nat
  nextEpoch : Nat
  refreshTasks : List RTask
  resolved : List (Nat × Option AuthResponse)
  tasks : List FetchTask
  refreshStartCount : Nat
deriving DecidableEq, Repr

/-- The value `refreshPromise` (epoch `e`) settled with, if settled. -/
def lookupResolved (w : World) (e : Nat) : Option (Option AuthResponse) :=
  (w.resolved.find? (fun p => p.1 = e)).map (fun p => p.2)

/-- Environment choice for a protected `fetch`: an ok response, a
non-ok status (with status text and the optional `message` of the JSON
error body), or a rejection (timeout/abort/network). -/
inductive NetResp where
  | rok
  | rstatus (code : Nat) (statusText : String) (detail : Option String)
  | rthrow (msg : String)
deriving DecidableEq, Repr

/-- Environment choice for the refresh endpoint `fetch`. -/
inductive RResp where
  | rrok
  | rrnotOk
  | rrthrow
deriving DecidableEq, Repr

/-- Environment choice for `response.json()` of an ok refresh
response. -/
inductive JResp where
  | jok (data : AuthResponse)
  | jthrow
deriving DecidableEq, Repr

/-- Step labels: which call acted and which environment input it
consumed. -/
inductive Label where
  | lstart (i : Nat)
  | lresp (i : Nat) (r : NetResp)
  | lrresp (e : Nat) (r : RResp)
  | lrjson (e : Nat) (j : JResp)
  | lresume (i : Nat)
deriving DecidableEq, Repr

/-- The Bearer token attached by the synchronous prefix of `fetchJSON`:
an `Authorization` header already present in `init.headers` wins;
otherwise the access token from localStorage is attached when truthy. -/
def attachedToken (presetAuth : Option String) (st : Storage) : Option String :=
  match presetAuth with
  | some a => some a
  | none => if truthyStr st.accessToken then st.accessToken else none

/-- The storage update performed by the failure paths of
`refreshAccessToken`: remove both tokens (email and name are kept). -/
def clearTokens (st : Storage) : Storage :=
  { st with accessToken := none, refreshToken := none }

/-- The storage update performed by the success path of
`refreshAccessToken`: store both new tokens and, when truthy, the email
and name from the response body. -/
def storeTokens (st : Storage) (d : AuthResponse) : Storage :=
  { st with
    accessToken := some d.accessToken
    refreshToken := some d.refreshToken
    email := if d.email ≠ "" then some d.email else st.email
    name := if truthyStr d.name then d.name else st.name }

/-- Notifications appended by a call to `onTokenRefresh` (a no-op when
no callback is registered). -/
def notify (w : World) (d : AuthResponse) : List AuthResponse :=
  w.notifications ++ (if w.callbackSet then [d] else [])

/-- The shared-state effect of the failure paths of
`refreshAccessToken` (non-ok response, network throw, or body-parse
throw): clear both tokens, notify subscribers with empty tokens,
settle epoch `e` with `null`, drop the live attempt `k`, and reset
`refreshPromise` in the `finally`. -/
def refreshFailWorld (w : World) (k : Nat) (e : Nat) : World :=
  { w with
    storage := clearTokens w.storage
    notifications := notify w emptyAuthResponse
    refreshPromise := none
    refreshTasks := w.refreshTasks.eraseIdx k
    resolved := w.resolved ++ [(e, none)] }

/-- The shared-state effect of the success path of
`refreshAccessToken` once the body `d` is parsed. -/
def refreshOkWorld (w : World) (k : Nat) (e : Nat) (d : AuthResponse) : World :=
  { w with
    storage := storeTokens w.storage d
    notifications := notify w d
    refreshPromise := none
    refreshTasks := w.refreshTasks.eraseIdx k
    resolved := w.resolved ++ [(e, some d)] }

/-- Replace call `i` of the task list (the event loop advancing one
`fetchJSON` call). -/
def setTask (w : World) (i : Nat) (t : FetchTask) : World :=
  { w with tasks := w.tasks.set i t }

/-- The shared-state effect of the first eligible 401: the synchronous
prefix of `refreshAccessToken` issues the refresh network call, creates
the attempt for the captured refresh token `rtk`, publishes its promise
in `refreshPromise`, and the triggering call `i` awaits it. -/
def startRefreshWorld (w : World) (i : Nat) (t : FetchTask) (rtk : String) : World :=
  { w with
    refreshPromise := some w.nextEpoch
    nextEpoch := w.nextEpoch + 1
    refreshTasks := w.refreshTasks ++ [⟨w.nextEpoch, rtk, .rawaitFetch⟩]
    refreshStartCount := w.refreshStartCount + 1
    tasks := w.tasks.set i { t with pc := .awaitRefresh w.nextEpoch } }

/-- One step of the client event loop: one synchronous segment of
`fetchJSON` / `refreshAccessToken` from `lib/api.ts`, with the
environment input in the label. -/
inductive Step : World → Label → World → Prop where
  /-- Synchronous prefix of `fetchJSON`: build headers (attaching the
  access token when none is preset) and issue the `fetch`. -/
  | startFetch (w : World) (i : Nat) (t : FetchTask)
      (ht : w.tasks[i]? = some t) (hpc : t.pc = .toStart) :
      Step w (.lstart i)
        (setTask w i { t with pc := .awaitFetch (attachedToken t.presetAuth w.storage) })
  /-- An ok response: `fetchJSON` resolves with the parsed body. -/
  | respOk (w : World) (i : Nat) (t : FetchTask) (tok : Option String)
      (ht : w.tasks[i]? = some t) (hpc : t.pc = .awaitFetch tok) :
      Step w (.lresp i .rok)
        (setTask w i { t with pc := .done (.success tok) })
  /-- 401 on a first attempt against an auth endpoint: throw the error
  body directly, never touching the refresh machinery. -/
  | respAuth401 (w : World) (i : Nat) (t : FetchTask) (tok : Option String)
      (st : String) (detail : Option String)
      (ht : w.tasks[i]? = some t) (hpc : t.pc = .awaitFetch tok)
      (hr : t.isRetry = false) (ha : isAuthUrl t.url = true) :
      Step w (.lresp i (.rstatus 401 st detail))
        (setTask w i { t with pc := .done (.error (httpErrMsg 401 st detail)) })
  /-- 401 on a first attempt against a protected endpoint while a
  refresh attempt is pending: `refreshAccessToken` returns the existing
  `refreshPromise`, so the call joins epoch `e` without any network
  call. -/
  | respJoin (w : World) (i : Nat) (t : FetchTask) (tok : Option String)
      (st : String) (detail : Option String) (e : Nat)
      (ht : w.tasks[i]? = some t) (hpc : t.pc = .awaitFetch tok)
      (hr : t.isRetry = false) (ha : isAuthUrl t.url = false)
      (hp : w.refreshPromise = some e) :
      Step w (.lresp i (.rstatus 401 st detail))
        (setTask w i { t with pc := .awaitRefresh e })
  /-- 401 on a first attempt against a protected endpoint with no
  pending attempt and no (truthy) refresh token in storage:
  `refreshAccessToken` returns `null` synchronously, so the call throws
  the terminal session-expired error; nothing else changes. -/
  | respNoRefreshTok (w : World) (i : Nat) (t : FetchTask) (tok : Option String)
      (st : String) (detail : Option String)
      (ht : w.tasks[i]? = some t) (hpc : t.pc = .awaitFetch tok)
      (hr : t.isRetry = false) (ha : isAuthUrl t.url = false)
      (hp : w.refreshPromise = none)
      (hn : truthyStr w.storage.refreshToken = false) :
      Step w (.lresp i (.rstatus 401 st detail))
        (setTask w i { t with pc := .done (.error sessionExpiredMsg) })
  /-- 401 on a first attempt against a protected endpoint with no
  pending attempt and a refresh token present: `refreshAccessToken`
  issues the single refresh network call, publishes the new promise in
  `refreshPromise`, and the caller awaits it. -/
  | respStartRefresh (w : World) (i : Nat) (t : FetchTask) (tok : Option String)
      (st : String) (detail : Option String) (rtk : String)
      (ht : w.tasks[i]? = some t) (hpc : t.pc = .awaitFetch tok)
      (hr : t.isRetry = false) (ha : isAuthUrl t.url = false)
      (hp : w.refreshPromise = none)
      (hk : w.storage.refreshToken = some rtk) (hne : rtk ≠ "") :
      Step w (.lresp i (.rstatus 401 st detail))
        (startRefreshWorld w i t rtk)
  /-- Any other non-ok response (including a 401 on an already-retried
  call): throw the error body. -/
  | respFail (w : World) (i : Nat) (t : FetchTask) (tok : Option String)
      (c : Nat) (st : String) (detail : Option String)
      (ht : w.tasks[i]? = some t) (hpc : t.pc = .awaitFetch tok)
      (hno : c < 200 ∨ 300 ≤ c) (hg : c = 401 → t.isRetry = true) :
      Step w (.lresp i (.rstatus c st detail))
        (setTask w i { t with pc := .done (.error (httpErrMsg c st detail)) })
  /-- The `fetch` itself rejects (timeout, abort, network error): the
  error propagates out of `fetchJSON` unchanged. -/
  | respThrow (w : World) (i : Nat) (t : FetchTask) (tok : Option String) (m : String)
      (ht : w.tasks[i]? = some t) (hpc : t.pc = .awaitFetch tok) :
      Step w (.lresp i (.rthrow m))
        (setTask w i { t with pc := .done (.error m) })
  /-- The refresh endpoint answers ok: the attempt suspends on
  `await response.json()`; `refreshPromise` stays pending. -/
  | rRespOk (w : World) (k : Nat) (rt : RTask)
      (hk : w.refreshTasks[k]? = some rt) (hpc : rt.pc = .rawaitFetch) :
      Step w (.lrresp rt.epoch .rrok)
        ({ w with refreshTasks := w.refreshTasks.set k { rt with pc := .rawaitJson } })
  /-- The refresh endpoint answers non-ok: clear the stored tokens,
  notify subscribers with empty tokens, settle the promise with `null`,
  and reset `refreshPromise` in the `finally`. -/
  | rRespNotOk (w : World) (k : Nat) (rt : RTask)
      (hk : w.refreshTasks[k]? = some rt) (hpc : rt.pc = .rawaitFetch) :
      Step w (.lrresp rt.epoch .rrnotOk) (refreshFailWorld w k rt.epoch)
  /-- The refresh `fetch` rejects: the `catch` block performs the same
  clearing and the promise settles with `null`. -/
  | rRespThrow (w : World) (k : Nat) (rt : RTask)
      (hk : w.refreshTasks[k]? = some rt) (hpc : rt.pc = .rawaitFetch) :
      Step w (.lrresp rt.epoch .rrthrow) (refreshFailWorld w k rt.epoch)
  /-- `response.json()` of an ok refresh response resolves: store the
  new pair, notify subscribers with it, settle the promise with the
  body, reset `refreshPromise`. -/
  | rJsonOk (w : World) (k : Nat) (rt : RTask) (d : AuthResponse)
      (hk : w.refreshTasks[k]? = some rt) (hpc : rt.pc = .rawaitJson) :
      Step w (.lrjson rt.epoch (.jok d)) (refreshOkWorld w k rt.epoch d)
  /-- `response.json()` of an ok refresh response rejects: the `catch`
  block treats it as a failed refresh. -/
  | rJsonThrow (w : World) (k : Nat) (rt : RTask)
      (hk : w.refreshTasks[k]? = some rt) (hpc : rt.pc = .rawaitJson) :
      Step w (.lrjson rt.epoch .jthrow) (refreshFailWorld w k rt.epoch)
  /-- A caller awaiting epoch `e` resumes after the promise settled
  with a usable body: it re-issues the same call once, with the new
  access token preset in the headers and the retry flag set. -/
  | resumeRetry (w : World) (i : Nat) (t : FetchTask) (e : Nat) (d : AuthResponse)
      (ht : w.tasks[i]? = some t) (hpc : t.pc = .awaitRefresh e)
      (hd : lookupResolved w e = some (some d)) (hne : d.accessToken ≠ "") :
      Step w (.lresume i)
        (setTask w i { t with isRetry := true, presetAuth := some d.accessToken, pc := .toStart })
  /-- A caller awaiting epoch `e` resumes after the promise settled
  with `null`: it throws the terminal session-expired error. -/
  | resumeFailNull (w : World) (i : Nat) (t : FetchTask) (e : Nat)
      (ht : w.tasks[i]? = some t) (hpc : t.pc = .awaitRefresh e)
      (hd : lookupResolved w e = some none) :
      Step w (.lresume i)
        (setTask w i { t with pc := .done (.error sessionExpiredMsg) })
  /-- A caller awaiting epoch `e` resumes after the promise settled
  with a body whose access token is falsy: `refreshed.accessToken`
  fails the truthiness test, so it throws the terminal error. -/
  | resumeFailEmptyTok (w : World) (i : Nat) (t : FetchTask) (e : Nat) (d : AuthResponse)
      (ht : w.tasks[i]? = some t) (hpc : t.pc = .awaitRefresh e)
      (hd : lookupResolved w e = some (some d)) (hemp : d.accessToken = "") :
      Step w (.lresume i)
        (setTask w i { t with pc := .done (.error sessionExpiredMsg) })

/-- Initial client states: module just loaded (`refreshPromise = null`,
no live attempt, nothing settled, no notifications yet), any storage
contents, and any set of protected calls none of which has started. -/
def Init (w : World) : Prop :=
  w.refreshPromise = none ∧ w.refreshTasks = [] ∧ w.resolved = [] ∧
  w.refreshStartCount = 0 ∧ w.nextEpoch = 0 ∧ w.notifications = [] ∧
  ∀ t ∈ w.tasks, t.pc = .toStart ∧ t.isRetry = false ∧ t.presetAuth = none

/-- Reachability from an initial state along `Step`. -/
inductive Reachable : World → Prop where
  | init (w : World) (h : Init w) : Reachable w
  | step (w : World) (l : Label) (w' : World)
      (hr : Reachable w) (hs : Step w l w') : Reachable w'

/-! ## Client theorems -/

/-- The single-flight invariant: every live refresh attempt is the one
whose promise is published in `refreshPromise`, a cleared
`refreshPromise` means no live attempt, and at most one attempt is ever
alive. -/
def RefreshInv (w : World) : Prop :=
  (∀ rt ∈ w.refreshTasks, w.refreshPromise = some rt.epoch) ∧
  (w.refreshPromise = none → w.refreshTasks = []) ∧
  w.refreshTasks.length ≤ 1

theorem refreshInv_init {w : World} (h : Init w) : RefreshInv w := by
  obtain ⟨-, h2, -, -, -, -, -⟩ := h
  refine ⟨?_, fun _ => h2, ?_⟩ <;> simp [h2]

theorem mem_of_getElem_some {α : Type} {l : List α} {k : Nat} {a : α}
    (h : l[k]? = some a) : a ∈ l := by
  obtain ⟨hlt, he⟩ := List.getElem?_eq_some.mp h
  exact he ▸ List.getElem_mem hlt

theorem eraseIdx_of_le_one {l : List RTask} {k : Nat} {rt : RTask}
    (hk : l[k]? = some rt) (hle : l.length ≤ 1) : l.eraseIdx k = [] := by
  have hklt : k < l.length := (List.getElem?_eq_some.mp hk).1
  have hlen : (l.eraseIdx k).length = l.length - 1 := by
    simp [List.length_eraseIdx, hklt]
  apply List.eq_nil_of_length_eq_zero
  omega

theorem refreshInv_step {w : World} {l : Label} {w' : World}
    (hs : Step w l w') (hi : RefreshInv w) : RefreshInv w' := by
  obtain ⟨h1, h2, h3⟩ := hi
  cases hs with
  | startFetch i t ht hpc => exact ⟨h1, h2, h3⟩
  | respOk i t tok ht hpc => exact ⟨h1, h2, h3⟩
  | respAuth401 i t tok st detail ht hpc hr ha => exact ⟨h1, h2, h3⟩
  | respJoin i t tok st detail e ht hpc hr ha hp => exact ⟨h1, h2, h3⟩
  | respNoRefreshTok i t tok st detail ht hpc hr ha hp hn => exact ⟨h1, h2, h3⟩
  | respStartRefresh i t tok st detail rtk ht hpc hr ha hp hk hne =>
      refine ⟨?_, ?_, ?_⟩ <;> simp [startRefreshWorld, h2 hp]
  | respFail i t tok c st detail ht hpc hno hg => exact ⟨h1, h2, h3⟩
  | respThrow i t tok m ht hpc => exact ⟨h1, h2, h3⟩
  | rRespOk k rt hk hpc =>
      have hmem := mem_of_getElem_some hk
      refine ⟨?_, ?_, ?_⟩
      · intro rt' hrt'
        rcases List.mem_or_eq_of_mem_set hrt' with h | h
        · exact h1 rt' h
        · subst h; exact h1 rt hmem
      · intro hnone
        rw [h1 rt hmem] at hnone
        exact absurd hnone (by simp)
      · simpa using h3
  | rRespNotOk k rt hk hpc =>
      have he := eraseIdx_of_le_one hk h3
      refine ⟨?_, ?_, ?_⟩ <;> simp [refreshFailWorld, he]
  | rRespThrow k rt hk hpc =>
      have he := eraseIdx_of_le_one hk h3
      refine ⟨?_, ?_, ?_⟩ <;> simp [refreshFailWorld, he]
  | rJsonOk k rt d hk hpc =>
      have he := eraseIdx_of_le_one hk h3
      refine ⟨?_, ?_, ?_⟩ <;> simp [refreshOkWorld, he]
  | rJsonThrow k rt hk hpc =>
      have he := eraseIdx_of_le_one hk h3
      refine ⟨?_, ?_, ?_⟩ <;> simp [refreshFailWorld, he]
  | resumeRetry i t e d ht hpc hd hne => exact ⟨h1, h2, h3⟩
  | resumeFailNull i t e ht hpc hd => exact ⟨h1, h2, h3⟩
  | resumeFailEmptyTok i t e d ht hpc hd hemp => exact ⟨h1, h2, h3⟩

theorem reachable_refreshInv {w : World} (h : Reachable w) : RefreshInv w := by
  induction h with
  | init w h => exact refreshInv_init h
  | step w l w' hr hs ih => exact refreshInv_step hs ih

/-- C1: single-flight refresh.  (1) In every reachable state at most one
refresh attempt is alive, so two refresh network calls are never in
flight concurrently.  (2) A step that issues a refresh network call
(the start counter grows) happens only with `refreshPromise` cleared,
creates exactly one call, and publishes the fresh attempt in
`refreshPromise`.  (3) A protected call that receives a 401 while an
attempt `e` is pending joins exactly that pending attempt and issues no
network call.  (4) A caller that resumes from attempt `e` retries using
precisely the access credential the attempt resolved with. -/
theorem single_flight_refresh :
    (∀ w : World, Reachable w → w.refreshTasks.length ≤ 1) ∧
    (∀ (w : World) (l : Label) (w' : World), Step w l w' →
        w.refreshStartCount < w'.refreshStartCount →
        w.refreshPromise = none ∧ w'.refreshPromise = some w.nextEpoch ∧
        w'.refreshStartCount = w.refreshStartCount + 1) ∧
    (∀ (w : World) (i : Nat) (st : String) (detail : Option String) (w' : World)
        (t : FetchTask) (e : Nat),
        Step w (.lresp i (.rstatus 401 st detail)) w' →
        w.tasks[i]? = some t → t.isRetry = false → isAuthUrl t.url = false →
        w.refreshPromise = some e →
        w' = setTask w i { t with pc := .awaitRefresh e } ∧
        w'.refreshStartCount = w.refreshStartCount) ∧
    (∀ (w : World) (i : Nat) (w' : World) (t : FetchTask) (e : Nat) (d : AuthResponse),
        Step w (.lresume i) w' →
        w.tasks[i]? = some t → t.pc = .awaitRefresh e →
        lookupResolved w e = some (some d) → d.accessToken ≠ "" →
        w' = setTask w i
          { t with isRetry := true, presetAuth := some d.accessToken, pc := .toStart }) := by
  refine ⟨?_, ?_, ?_, ?_⟩
  · intro w hw
    exact (reachable_refreshInv hw).2.2
  · intro w l w' hs hlt
    cases hs with
    | startFetch i t ht hpc => exact absurd hlt (lt_irrefl _)
    | respOk i t tok ht hpc => exact absurd hlt (lt_irrefl _)
    | respAuth401 i t tok st detail ht hpc hr ha => exact absurd hlt (lt_irrefl _)
    | respJoin i t tok st detail e ht hpc hr ha hp => exact absurd hlt (lt_irrefl _)
    | respNoRefreshTok i t tok st detail ht hpc hr ha hp hn =>
        exact absurd hlt (lt_irrefl _)
    | respStartRefresh i t tok st detail rtk ht hpc hr ha hp hk hne => exact ⟨hp, rfl, rfl⟩
    | respFail i t tok c st detail ht hpc hno hg => exact absurd hlt (lt_irrefl _)
    | respThrow i t tok m ht hpc => exact absurd hlt (lt_irrefl _)
    | rRespOk k rt hk hpc => exact absurd hlt (lt_irrefl _)
    | rRespNotOk k rt hk hpc => exact absurd hlt (lt_irrefl _)
    | rRespThrow k rt hk hpc => exact absurd hlt (lt_irrefl _)
    | rJsonOk k rt d hk hpc => exact absurd hlt (lt_irrefl _)
    | rJsonThrow k rt hk hpc => exact absurd hlt (lt_irrefl _)
    | resumeRetry i t e d ht hpc hd hne => exact absurd hlt (lt_irrefl _)
    | resumeFailNull i t e ht hpc hd => exact absurd hlt (lt_irrefl _)
    | resumeFailEmptyTok i t e d ht hpc hd hemp => exact absurd hlt (lt_irrefl _)
  · intro w i st detail w' t e hs ht hr ha hp
    cases hs <;> simp_all [setTask]
  · intro w i w' t e d hs ht hpc hd hne
    cases hs <;> simp_all [setTask]

theorem setTask_getElem_self {w : World} {i : Nat} {t1 : FetchTask}
    (hlt : i < w.tasks.length) : (setTask w i t1).tasks[i]? = some t1 :=
  List.getElem?_set_self hlt

theorem setTask_getElem_other {w : World} {i j : Nat} {t1 : FetchTask}
    (hij : j ≠ i) : (setTask w j t1).tasks[i]? = w.tasks[i]? :=
  List.getElem?_set_ne hij

theorem setTask_frame_and_pc {w : World} {i : Nat} {t1 : FetchTask}
    (hlt : i < w.tasks.length) (hpc1 : ∀ e, t1.pc ≠ FetchPC.awaitRefresh e) :
    (setTask w i t1).refreshStartCount = w.refreshStartCount ∧
    (setTask w i t1).refreshTasks = w.refreshTasks ∧
    (setTask w i t1).refreshPromise = w.refreshPromise ∧
    (∀ (t' : FetchTask) (e : Nat), (setTask w i t1).tasks[i]? = some t' →
      t'.pc ≠ FetchPC.awaitRefresh e) := by
  refine ⟨rfl, rfl, rfl, ?_⟩
  intro t' e ht'
  rw [setTask_getElem_self hlt] at ht'
  injection ht' with h
  rw [h] at hpc1
  exact hpc1 e

/-- C2: exactly-once retry.  (1) An eligible 401 whose refresh succeeds
is replayed exactly once, carrying `isRetry = true` and the new
credential preset in its headers.  (2) A call already marked as a retry
that receives any non-ok response — a second 401 included — terminates
with the thrown error and neither starts nor joins a refresh.  (3) If
the refresh itself failed, the caller terminates with the session
expired error instead of retrying.  (4) A terminated call never takes
another step, so no second retry or further refresh is ever attempted
for it. -/
theorem exactly_once_retry :
    (∀ (w : World) (i : Nat) (w' : World) (t : FetchTask) (e : Nat) (d : AuthResponse),
        Step w (.lresume i) w' →
        w.tasks[i]? = some t → t.pc = .awaitRefresh e →
        lookupResolved w e = some (some d) → d.accessToken ≠ "" →
        w' = setTask w i
          { t with isRetry := true, presetAuth := some d.accessToken, pc := .toStart }) ∧
    (∀ (w : World) (i : Nat) (c : Nat) (st : String) (detail : Option String)
        (w' : World) (t : FetchTask) (tok : Option String),
        Step w (.lresp i (.rstatus c st detail)) w' →
        w.tasks[i]? = some t → t.pc = .awaitFetch tok → t.isRetry = true →
        w' = setTask w i { t with pc := .done (.error (httpErrMsg c st detail)) } ∧
        w'.refreshStartCount = w.refreshStartCount ∧
        w'.refreshTasks = w.refreshTasks ∧ w'.refreshPromise = w.refreshPromise) ∧
    (∀ (w : World) (i : Nat) (w' : World) (t : FetchTask) (e : Nat),
        Step w (.lresume i) w' →
        w.tasks[i]? = some t → t.pc = .awaitRefresh e →
        lookupResolved w e = some none →
        w' = setTask w i { t with pc := .done (.error sessionExpiredMsg) }) ∧
    (∀ (w : World) (l : Label) (w' : World) (i : Nat) (t : FetchTask) (r : FetchResult),
        Step w l w' → w.tasks[i]? = some t → t.pc = .done r →
        w'.tasks[i]? = some t) := by
  refine ⟨?_, ?_, ?_, ?_⟩
  · intro w i w' t e d hs ht hpc hd hne
    cases hs <;> simp_all [setTask]
  · intro w i c st detail w' t tok hs ht hpc hr
    cases hs <;> simp_all [setTask]
  · intro w i w' t e hs ht hpc hd
    cases hs <;> simp_all [setTask]
  · intro w l w' i t r hs ht hpc
    cases hs with
    | startFetch j t0 ht0 hpc0 =>
        by_cases hij : j = i
        · subst hij; rw [ht0] at ht; injection ht with h; subst h; simp [hpc0] at hpc
        · rw [setTask_getElem_other hij]; exact ht
    | respOk j t0 tok0 ht0 hpc0 =>
        by_cases hij : j = i
        · subst hij; rw [ht0] at ht; injection ht with h; subst h; simp [hpc0] at hpc
        · rw [setTask_getElem_other hij]; exact ht
    | respAuth401 j t0 tok0 st0 detail0 ht0 hpc0 hr0 ha0 =>
        by_cases hij : j = i
        · subst hij; rw [ht0] at ht; injection ht with h; subst h; simp [hpc0] at hpc
        · rw [setTask_getElem_other hij]; exact ht
    | respJoin j t0 tok0 st0 detail0 e0 ht0 hpc0 hr0 ha0 hp0 =>
        by_cases hij : j = i
        · subst hij; rw [ht0] at ht; injection ht with h; subst h; simp [hpc0] at hpc
        · rw [setTask_getElem_other hij]; exact ht
    | respNoRefreshTok j t0 tok0 st0 detail0 ht0 hpc0 hr0 ha0 hp0 hn0 =>
        by_cases hij : j = i
        · subst hij; rw [ht0] at ht; injection ht with h; subst h; simp [hpc0] at hpc
        · rw [setTask_getElem_other hij]; exact ht
    | respStartRefresh j t0 tok0 st0 detail0 rtk0 ht0 hpc0 hr0 ha0 hp0 hk0 hne0 =>
        by_cases hij : j = i
        · subst hij; rw [ht0] at ht; injection ht with h; subst h; simp [hpc0] at hpc
        · show (w.tasks.set j _)[i]? = some t
          rw [List.getElem?_set_ne hij]; exact ht
    | respFail j t0 tok0 c0 st0 detail0 ht0 hpc0 hno0 hg0 =>
        by_cases hij : j = i
        · subst hij; rw [ht0] at ht; injection ht with h; subst h; simp [hpc0] at hpc
        · rw [setTask_getElem_other hij]; exact ht
    | respThrow j t0 tok0 m0 ht0 hpc0 =>
        by_cases hij : j = i
        · subst hij; rw [ht0] at ht; injection ht with h; subst h; simp [hpc0] at hpc
        · rw [setTask_getElem_other hij]; exact ht
    | rRespOk k rt hk hpc2 => exact ht
    | rRespNotOk k rt hk hpc2 => exact ht
    | rRespThrow k rt hk hpc2 => exact ht
    | rJsonOk k rt d hk hpc2 => exact ht
    | rJsonThrow k rt hk hpc2 => exact ht
    | resumeRetry j t0 e0 d0 ht0 hpc0 hd0 hne0 =>
        by_cases hij : j = i
        · subst hij; rw [ht0] at ht; injection ht with h; subst h; simp [hpc0] at hpc
        · rw [setTask_getElem_other hij]; exact ht
    | resumeFailNull j t0 e0 ht0 hpc0 hd0 =>
        by_cases hij : j = i
        · subst hij; rw [ht0] at ht; injection ht with h; subst h; simp [hpc0] at hpc
        · rw [setTask_getElem_other hij]; exact ht
    | resumeFailEmptyTok j t0 e0 d0 ht0 hpc0 hd0 hemp0 =>
        by_cases hij : j = i
        · subst hij; rw [ht0] at ht; injection ht with h; subst h; simp [hpc0] at hpc
        · rw [setTask_getElem_other hij]; exact ht

/-- C3: for every request against an auth endpoint (URL containing
`/api/auth/`), a 401 is thrown directly as the decoded error body, and
no step consuming a response of such a request ever starts a refresh
network call, changes the refresh state, or leaves the call awaiting a
refresh — `refreshAccessToken` is never invoked for it. -/
theorem auth_rejections_never_refresh :
    (∀ (w : World) (i : Nat) (st : String) (detail : Option String) (w' : World)
        (t : FetchTask),
        Step w (.lresp i (.rstatus 401 st detail)) w' →
        w.tasks[i]? = some t → isAuthUrl t.url = true → t.isRetry = false →
        w' = setTask w i { t with pc := .done (.error (httpErrMsg 401 st detail)) } ∧
        w'.refreshStartCount = w.refreshStartCount ∧
        w'.refreshTasks = w.refreshTasks ∧ w'.refreshPromise = w.refreshPromise) ∧
    (∀ (w : World) (i : Nat) (r : NetResp) (w' : World) (t : FetchTask),
        Step w (.lresp i r) w' → w.tasks[i]? = some t → isAuthUrl t.url = true →
        w'.refreshStartCount = w.refreshStartCount ∧
        w'.refreshTasks = w.refreshTasks ∧ w'.refreshPromise = w.refreshPromise ∧
        (∀ (t' : FetchTask) (e : Nat), w'.tasks[i]? = some t' →
          t'.pc ≠ .awaitRefresh e)) := by
  constructor
  · intro w i st detail w' t hs ht ha hr
    cases hs <;> simp_all [setTask]
  · intro w i r w' t hs ht ha
    have hlt : i < w.tasks.length := (List.getElem?_eq_some.mp ht).1
    cases hs <;>
      first
      | (exfalso; simp_all; done)
      | (refine setTask_frame_and_pc hlt ?_; intro e; simp)

/-- C4: when the refresh attempt fails (non-ok response, network throw,
or a body that fails to parse), both tokens are removed from storage,
subscribers are notified with empty tokens (when a callback is
registered), the attempt settles with `null`, and `refreshPromise` is
reset; every caller that then resumes from that attempt fails with the
terminal session-expired error. -/
theorem refresh_failure_clears_session :
    (∀ (w : World) (e : Nat) (r : RResp) (w' : World),
        Step w (.lrresp e r) w' → r ≠ .rrok →
        w'.storage.accessToken = none ∧ w'.storage.refreshToken = none ∧
        w'.notifications =
          w.notifications ++ (if w.callbackSet then [emptyAuthResponse] else []) ∧
        w'.refreshPromise = none ∧
        w'.resolved = w.resolved ++ [(e, none)]) ∧
    (∀ (w : World) (e : Nat) (w' : World),
        Step w (.lrjson e .jthrow) w' →
        w'.storage.accessToken = none ∧ w'.storage.refreshToken = none ∧
        w'.notifications =
          w.notifications ++ (if w.callbackSet then [emptyAuthResponse] else []) ∧
        w'.refreshPromise = none ∧
        w'.resolved = w.resolved ++ [(e, none)]) ∧
    (∀ (w : World) (i : Nat) (w' : World) (t : FetchTask) (e : Nat),
        Step w (.lresume i) w' →
        w.tasks[i]? = some t → t.pc = .awaitRefresh e →
        lookupResolved w e = some none →
        w' = setTask w i { t with pc := .done (.error sessionExpiredMsg) }) := by
  refine ⟨?_, ?_, ?_⟩
  · intro w e r w' hs hne
    cases hs <;> simp_all [refreshFailWorld, clearTokens, notify]
  · intro w e w' hs
    cases hs
    simp_all [refreshFailWorld, clearTokens, notify]
  · intro w i w' t e hs ht hpc hd
    cases hs <;> simp_all [setTask]

/-- C10: a 401 on a protected call while no refresh attempt is pending
and no refresh token is stored makes `refreshAccessToken` return `null`
synchronously, with no network call, and the call throws the terminal
session-expired error; the storage (stale access token included), the
subscriber notifications, and the refresh state are all left exactly as
they were. -/
theorem no_refresh_token_frame :
    ∀ (w : World) (i : Nat) (st : String) (detail : Option String) (w' : World)
      (t : FetchTask),
      Step w (.lresp i (.rstatus 401 st detail)) w' →
      w.tasks[i]? = some t → t.isRetry = false → isAuthUrl t.url = false →
      w.refreshPromise = none → w.storage.refreshToken = none →
      w' = setTask w i { t with pc := .done (.error sessionExpiredMsg) } ∧
      w'.storage = w.storage ∧ w'.notifications = w.notifications ∧
      w'.refreshStartCount = w.refreshStartCount ∧
      w'.refreshTasks = w.refreshTasks ∧ w'.refreshPromise = none := by
  intro w i st detail w' t hs ht hr ha hp hn
  cases hs <;> simp_all [setTask]

/-! ## Concrete client states for the witnesses -/

/-- A protected call awaiting its response, sent with a stale access
token. -/
def staleTask : FetchTask := ⟨"/api/goals", false, none, .awaitFetch (some "stale-access")⟩

/-- Client state with a live refresh attempt (epoch 7) and one
protected call awaiting its response. -/
def wPending : World :=
  { storage := ⟨some "stale-access", some "refresh-tok", some "a@b.com", none⟩
    callbackSet := true
    notifications := []
    refreshPromise := some 7
    nextEpoch := 8
    refreshTasks := [⟨7, "refresh-tok", .rawaitFetch⟩]
    resolved := []
    tasks := [staleTask]
    refreshStartCount := 1 }

/-- A freshly loaded client with two protected calls not yet started. -/
def wStart : World :=
  { storage := ⟨some "stale-access", some "refresh-tok", none, none⟩
    callbackSet := false
    notifications := []
    refreshPromise := none
    nextEpoch := 0
    refreshTasks := []
    resolved := []
    tasks := [⟨"/api/goals", false, none, .toStart⟩,
              ⟨"/api/commutes", false, none, .toStart⟩]
    refreshStartCount := 0 }

/-- A call already replayed once with the refreshed credential. -/
def retriedTask : FetchTask :=
  ⟨"/api/goals", true, some "fresh-access", .awaitFetch (some "fresh-access")⟩

/-- Client state after a successful refresh (epoch 0) with the retried
call in flight. -/
def wRetried : World :=
  { storage := ⟨some "fresh-access", some "fresh-refresh", some "a@b.com", none⟩
    callbackSet := true
    notifications := [⟨"fresh-access", "fresh-refresh", "a@b.com", none⟩]
    refreshPromise := none
    nextEpoch := 1
    refreshTasks := []
    resolved := [(0, some ⟨"fresh-access", "fresh-refresh", "a@b.com", none⟩)]
    tasks := [retriedTask]
    refreshStartCount := 1 }

/-- A login call awaiting its response. -/
def authTask : FetchTask :=
  ⟨"http://localhost:8080/api/auth/login", false, none, .awaitFetch none⟩

/-- Client state with only the login call in flight. -/
def wAuth : World :=
  { storage := ⟨none, none, none, none⟩
    callbackSet := false
    notifications := []
    refreshPromise := none
    nextEpoch := 0
    refreshTasks := []
    resolved := []
    tasks := [authTask]
    refreshStartCount := 0 }

/-- A protected call awaiting its response while storage has a stale
access token but no refresh token. -/
def noRefreshTask : FetchTask :=
  ⟨"/api/commutes", false, none, .awaitFetch (some "stale-access")⟩

/-- Client state with no stored refresh token and no pending attempt. -/
def wNoRefresh : World :=
  { storage := ⟨some "stale-access", none, some "a@b.com", none⟩
    callbackSet := true
    notifications := []
    refreshPromise := none
    nextEpoch := 0
    refreshTasks := []
    resolved := []
    tasks := [noRefreshTask]
    refreshStartCount := 0 }

/-- Witness for C1: a fresh client state is reachable and has at most
one live attempt, and a 401 received while attempt 7 is pending joins
that attempt without issuing a refresh network call. -/
theorem single_flight_refresh_witness :
    wStart.refreshTasks.length ≤ 1 ∧
    (setTask wPending 0 { staleTask with pc := .awaitRefresh 7 }).refreshStartCount =
      wPending.refreshStartCount :=
  ⟨single_flight_refresh.1 wStart
      (Reachable.init wStart ⟨rfl, rfl, rfl, rfl, rfl, rfl, by decide⟩),
   (single_flight_refresh.2.2.1 wPending 0 "Unauthorized" none _ staleTask 7
      (Step.respJoin wPending 0 staleTask (some "stale-access") "Unauthorized" none 7
        rfl rfl rfl (by decide) rfl)
      rfl rfl (by decide) rfl).2⟩

/-- Witness for C2: a second 401 on the already-retried call terminates
it without issuing another refresh network call. -/
theorem exactly_once_retry_witness :
    (setTask wRetried 0
        { retriedTask with
          pc := .done (.error (httpErrMsg 401 "Unauthorized" none)) }).refreshStartCount =
      wRetried.refreshStartCount :=
  (exactly_once_retry.2.1 wRetried 0 401 "Unauthorized" none _ retriedTask
      (some "fresh-access")
      (Step.respFail wRetried 0 retriedTask (some "fresh-access") 401 "Unauthorized" none
        rfl rfl (Or.inr (by omega)) (fun _ => rfl))
      rfl rfl rfl).2.1

/-- Witness for C3: a 401 on the login call leaves the refresh state
untouched. -/
theorem auth_rejections_never_refresh_witness :
    (setTask wAuth 0
        { authTask with
          pc := .done (.error (httpErrMsg 401 "Unauthorized"
            (some "Invalid email or password"))) }).refreshStartCount =
      wAuth.refreshStartCount :=
  (auth_rejections_never_refresh.1 wAuth 0 "Unauthorized"
      (some "Invalid email or password") _ authTask
      (Step.respAuth401 wAuth 0 authTask none "Unauthorized"
        (some "Invalid email or password") rfl rfl rfl (by decide))
      rfl (by decide) rfl).2.1

/-- Witness for C4: a non-ok refresh response clears both stored tokens
and resets the single-flight slot. -/
theorem refresh_failure_clears_session_witness :
    (refreshFailWorld wPending 0 7).storage.accessToken = none ∧
    (refreshFailWorld wPending 0 7).refreshPromise = none :=
  have h := refresh_failure_clears_session.1 wPending 7 .rrnotOk _
    (Step.rRespNotOk wPending 0 ⟨7, "refresh-tok", .rawaitFetch⟩ rfl rfl)
    (by decide)
  ⟨h.1, h.2.2.2.1⟩

/-- Witness for C10: the 401-with-no-refresh-token path leaves storage
and notifications untouched. -/
theorem no_refresh_token_frame_witness :
    (setTask wNoRefresh 0
        { noRefreshTask with pc := .done (.error sessionExpiredMsg) }).storage =
      wNoRefresh.storage ∧
    (setTask wNoRefresh 0
        { noRefreshTask with pc := .done (.error sessionExpiredMsg) }).notifications =
      wNoRefresh.notifications :=
  have h := no_refresh_token_frame wNoRefresh 0 "Unauthorized" none _ noRefreshTask
    (Step.respNoRefreshTok wNoRefresh 0 noRefreshTask (some "stale-access")
      "Unauthorized" none rfl rfl rfl (by decide) rfl rfl)
    rfl rfl (by decide) rfl rfl
  ⟨h.2.1, h.2.2.1⟩

end VerdeGO
